import Mathlib

/-!
Verification development for the snip (select-and-crop screen capture)
backend of the GlassView frontend, a shallow embedding of
src/Frontend/src-tauri/src/main.rs.

Modelling conventions:
* The process-wide mutable state (the SNIP_STATE slot and the window
  manager state observable by the core) is an explicit World record that
  every command takes and returns.  The mutex around SNIP_STATE is modelled
  as atomic state passing; lock poisoning cannot occur because no code path
  of the module can abort while holding the lock.
* External collaborators (screen capture, webview window operations, the
  event channel, the PNG and base64 encoders) are oracles: their outcomes
  are supplied as environment records or as a Codec record of pure
  functions, exactly at the call sites where the source consults them.
* Rust f32 arithmetic is modelled as exact rational arithmetic followed by
  the Rust float-to-u32 cast (truncation toward zero with saturation),
  which is the numeric semantics the module relies on; all concrete
  scenarios use values that f32 represents exactly.
* Machine integers are Nat; the u32 index arithmetic of the crop loop
  carries an explicit mod 2 ^ 32 where the source computes in u32.
-/

/-- The SnipState record of the source: raw RGBA bytes plus dimensions. -/
structure SnipState where
  image : List Nat
  width : Nat
  height : Nat
deriving DecidableEq

/-- The selection arguments of finish_snip, viewport coordinates as f32,
modelled as exact rationals. -/
structure Selection where
  x : ℚ
  y : ℚ
  width : ℚ
  height : ℚ
  viewport_w : ℚ
  viewport_h : ℚ
deriving DecidableEq

/-- Observable state: the SNIP_STATE slot plus the window-manager facts the
module reads and writes (existence, visibility and focus of the main and
overlay webview windows) and the log of emitted events. -/
structure World where
  snip : Option SnipState
  mainExists : Bool
  mainVisible : Bool
  mainFocused : Bool
  overlayExists : Bool
  overlayVisible : Bool
  overlayFocused : Bool
  events : List (String × String)
deriving DecidableEq

/-- The pure encoding collaborators: the png crate encoder (fallible, as the
header or data write may fail) and the base64 engine. -/
structure Codec where
  pngEncode : Nat → Nat → List Nat → Except String (List Nat)
  b64 : List Nat → String

/-- Outcomes of the external calls made by start_snip, in call order. -/
structure StartEnv where
  hideOk : Bool
  capture : Option SnipState
  captureMsg : String
  buildOk : Bool
  buildMsg : String
  showOk : Bool
  showMsg : String
  focusOk : Bool
  restoreShowOk : Bool
  restoreFocusOk : Bool

/-- Outcomes of the external calls made by finish_snip. -/
structure FinishEnv where
  emitOk : Bool
  emitMsg : String
  mainShowOk : Bool
  mainFocusOk : Bool
  closeOk : Bool

/-- Outcomes of the external calls made by cancel_snip. -/
structure CancelEnv where
  closeOk : Bool
  emitOk : Bool
  emitMsg : String
  mainShowOk : Bool
  mainFocusOk : Bool

/-- The Rust f32 clamp: max lo (min v hi), the semantics of v.clamp(lo, hi)
for lo le hi (the only way the source calls it). -/
def rustClamp (v lo hi : ℚ) : ℚ := max lo (min v hi)

/-- The Rust cast expression (v as u32) on a float value: truncation toward
zero, saturating at 0 below and at 2 ^ 32 - 1 above. -/
def rustCastU32 (q : ℚ) : Nat :=
  if q ≤ 0 then 0 else min ⌊q⌋.toNat (2 ^ 32 - 1)

/-- The pixel-space crop computation of finish_snip lines 168-174: scale
factors, clamped truncated origin, then extent clamped to the remaining
buffer past the origin. -/
def computeCrop (W H : Nat) (a : Selection) : Nat × Nat × Nat × Nat :=
  let scale_x : ℚ := (W : ℚ) / a.viewport_w
  let scale_y : ℚ := (H : ℚ) / a.viewport_h
  let sx := rustCastU32 (rustClamp (a.x * scale_x) 0 (W : ℚ))
  let sy := rustCastU32 (rustClamp (a.y * scale_y) 0 (H : ℚ))
  let sw := rustCastU32 (rustClamp (a.width * scale_x) 0 ((W : ℚ) - (sx : ℚ)))
  let sh := rustCastU32 (rustClamp (a.height * scale_y) 0 ((H : ℚ) - (sy : ℚ)))
  (sx, sy, sw, sh)

/-- Clamped truncated pixel origin along the horizontal axis, the sx
binding of finish_snip. -/
def sxOf (W : Nat) (a : Selection) : Nat :=
  rustCastU32 (rustClamp (a.x * ((W : ℚ) / a.viewport_w)) 0 (W : ℚ))

/-- Clamped truncated pixel origin along the vertical axis, the sy binding
of finish_snip. -/
def syOf (H : Nat) (a : Selection) : Nat :=
  rustCastU32 (rustClamp (a.y * ((H : ℚ) / a.viewport_h)) 0 (H : ℚ))

/-- Clamped truncated pixel extent along the horizontal axis, the sw
binding of finish_snip. -/
def swOf (W : Nat) (a : Selection) : Nat :=
  rustCastU32 (rustClamp (a.width * ((W : ℚ) / a.viewport_w)) 0 ((W : ℚ) - (sxOf W a : ℚ)))

/-- Clamped truncated pixel extent along the vertical axis, the sh binding
of finish_snip. -/
def shOf (H : Nat) (a : Selection) : Nat :=
  rustCastU32 (rustClamp (a.height * ((H : ℚ) / a.viewport_h)) 0 ((H : ℚ) - (syOf H a : ℚ)))

/-- Byte offset of the start of a crop row, computed in u32 as in the
source: (row * snip.width * 4 + sx * 4) as usize. -/
def rowStart (W sx row : Nat) : Nat := (row * W * 4 + sx * 4) % 2 ^ 32

/-- Byte offset one past the end of a crop row: start + (sw * 4) as usize,
where sw * 4 is computed in u32 and the addition in usize. -/
def rowEnd (W sx sw row : Nat) : Nat := rowStart W sx row + sw * 4 % 2 ^ 32

/-- The row-wise crop loop of finish_snip lines 187-192: for each row in
sy..sy+sh, append the byte slice [start, end) of the source image. -/
def cropLoop (img : List Nat) (W sx sy sw sh : Nat) : List Nat :=
  (List.range' sy sh).foldl
    (fun acc row =>
      acc ++ ((img.drop (rowStart W sx row)).take (rowEnd W sx sw row - rowStart W sx row)))
    []

/-- The data-URL wrapping applied to every encoded image. -/
def dataUrlOf (s : String) : String := "data:image/png;base64," ++ s

/-- Best-effort restoration of the main window (show then set_focus, both
with results discarded), as in the rollback paths of start_snip. -/
def restoreMain (w : World) (showOk focusOk : Bool) : World :=
  if w.mainExists then
    { w with mainVisible := if showOk then true else w.mainVisible,
             mainFocused := if focusOk then true else w.mainFocused }
  else w

/-- start_snip: hide the main window (best effort), capture the screen
(propagating capture errors), store the capture in the slot, create the
overlay window if absent (its build failure is fatal), then show and focus
it; on a show failure restore the main window and propagate the error.
A successful build yields an existing window, so the defensive branch of
the source for a missing overlay after build is unreachable. -/
def start_snip (w : World) (env : StartEnv) : World × Except String Unit :=
  let w1 := if w.mainExists && env.hideOk then { w with mainVisible := false } else w
  match env.capture with
  | none => (w1, Except.error env.captureMsg)
  | some img =>
    let w2 := { w1 with snip := some img }
    if w2.overlayExists = false && env.buildOk = false then
      (w2, Except.error env.buildMsg)
    else
      let w3 := if w2.overlayExists then w2
                else { w2 with overlayExists := true, overlayVisible := true,
                               overlayFocused := true }
      if env.showOk then
        let w4 := { w3 with overlayVisible := true }
        let w5 := if env.focusOk then { w4 with overlayFocused := true } else w4
        (w5, Except.ok ())
      else
        (restoreMain w3 env.restoreShowOk env.restoreFocusOk, Except.error env.showMsg)

/-- get_snip_image: non-destructive read of the slot, full-buffer PNG
encode, base64 data URL. -/
def get_snip_image (w : World) (c : Codec) : World × Except String String :=
  match w.snip with
  | none => (w, Except.error "No snip state")
  | some snip =>
    match c.pngEncode snip.width snip.height snip.image with
    | Except.error e => (w, Except.error e)
    | Except.ok png => (w, Except.ok (dataUrlOf (c.b64 png)))

/-- Tail of finish_snip after a successful encode: emit snip-complete to the
main window (a failing emit propagates immediately), best-effort show and
focus of the main window, then best-effort close of the overlay. -/
def finishEmit (w : World) (fe : FinishEnv) (payload : String) : World × Except String Unit :=
  if w.mainExists && !fe.emitOk then (w, Except.error fe.emitMsg)
  else
    let w1 := if w.mainExists then
                { w with events := w.events ++ [("snip-complete", payload)],
                         mainVisible := if fe.mainShowOk then true else w.mainVisible,
                         mainFocused := if fe.mainFocusOk then true else w.mainFocused }
              else w
    let w2 := if w1.overlayExists && fe.closeOk then
                { w1 with overlayExists := false, overlayVisible := false,
                          overlayFocused := false }
              else w1
    (w2, Except.ok ())

/-- Body of finish_snip once the session has been taken: selection
validation, crop computation, zero-extent check, crop, encode, emit. -/
def finishActive (w : World) (c : Codec) (fe : FinishEnv) (a : Selection)
    (snip : SnipState) : World × Except String Unit :=
  if a.width ≤ 0 ∨ a.height ≤ 0 then (w, Except.error "Invalid selection")
  else
    let sx := sxOf snip.width a
    let sy := syOf snip.height a
    let sw := swOf snip.width a
    let sh := shOf snip.height a
    if sw = 0 ∨ sh = 0 then (w, Except.error "Selection too small")
    else
      let cropped := cropLoop snip.image snip.width sx sy sw sh
      match c.pngEncode sw sh cropped with
      | Except.error e => (w, Except.error e)
      | Except.ok png => finishEmit w fe (dataUrlOf (c.b64 png))

/-- finish_snip: takes (consumes) the slot before any validation; an empty
slot is the NoActiveSnip error of the spec. -/
def finish_snip (w : World) (c : Codec) (fe : FinishEnv) (a : Selection) :
    World × Except String Unit :=
  match w.snip with
  | none => (w, Except.error "No snip state")
  | some snip => finishActive { w with snip := none } c fe a snip

/-- cancel_snip: clear the slot, best-effort close of the overlay, then emit
snip-cancel to the main window (a failing emit propagates) and best-effort
show and focus of the main window. -/
def cancel_snip (w : World) (ce : CancelEnv) : World × Except String Unit :=
  let w1 : World := { w with snip := none }
  let w2 := if w1.overlayExists && ce.closeOk then
              { w1 with overlayExists := false, overlayVisible := false,
                        overlayFocused := false }
            else w1
  if w2.mainExists then
    if ce.emitOk then
      ({ w2 with events := w2.events ++ [("snip-cancel", "")],
                 mainVisible := if ce.mainShowOk then true else w2.mainVisible,
                 mainFocused := if ce.mainFocusOk then true else w2.mainFocused },
       Except.ok ())
    else (w2, Except.error ce.emitMsg)
  else (w2, Except.ok ())

/-- The dimension formula of the spec, following its words: the cropped
extent equals clamp(round_down(extent * scale), 0, bound), with bound the
remaining buffer past the clamped origin. -/
def specCropExtent (v : ℚ) (bound : Nat) : Nat :=
  (max 0 (min ⌊v⌋ (bound : ℤ))).toNat

def cOk : Codec := ⟨fun _ _ d => Except.ok d, fun _ => "AAAA"⟩

def feOk : FinishEnv := ⟨true, "emit failed", true, true, true⟩

def ceOk : CancelEnv := ⟨true, true, "emit failed", true, true⟩

def s4 : SnipState := ⟨List.replicate 64 0, 4, 4⟩

def wIdle : World := ⟨none, true, true, true, false, false, false, []⟩

def wActive : World := ⟨some s4, true, false, false, true, true, true, []⟩

def s1920 : SnipState := ⟨List.replicate (1920 * 1080 * 4) 0, 1920, 1080⟩

def w1920 : World := ⟨some s1920, true, false, false, true, true, true, []⟩

def envShowFail : StartEnv :=
  ⟨true, some s4, "capture failed", true, "build failed", false,
   "overlay show failed", true, true, true⟩

def envCapFail : StartEnv :=
  ⟨true, none, "capture failed", true, "build failed", true,
   "overlay show failed", true, true, true⟩

lemma computeCrop_def (W H : Nat) (a : Selection) :
    computeCrop W H a = (sxOf W a, syOf H a, swOf W a, shOf H a) := rfl

lemma floor_max_q (a b : ℚ) : ⌊max a b⌋ = max ⌊a⌋ ⌊b⌋ :=
  Int.floor_mono.map_max

lemma floor_min_q (a b : ℚ) : ⌊min a b⌋ = min ⌊a⌋ ⌊b⌋ :=
  Int.floor_mono.map_min

/-- The composition cast-of-clamp used for every crop coordinate, rewritten
as integer clamping of the floor. -/
lemma castClamp (v : ℚ) (M : Nat) (hM : M ≤ 2 ^ 32 - 1) :
    rustCastU32 (rustClamp v 0 (M : ℚ)) = (max 0 (min ⌊v⌋ (M : ℤ))).toNat := by
  have hfloor : ⌊rustClamp v 0 (M : ℚ)⌋ = max 0 (min ⌊v⌋ (M : ℤ)) := by
    rw [rustClamp, floor_max_q, floor_min_q, Int.floor_natCast, Int.floor_zero]
  unfold rustCastU32
  by_cases h : rustClamp v 0 (M : ℚ) ≤ 0
  · rw [if_pos h]
    have h0 : (0 : ℚ) ≤ rustClamp v 0 (M : ℚ) := le_max_left _ _
    have hz : rustClamp v 0 (M : ℚ) = 0 := le_antisymm h h0
    rw [hz] at hfloor
    simp only [Int.floor_zero] at hfloor
    omega
  · rw [if_neg h, hfloor]
    have hMM : max 0 (min ⌊v⌋ (M : ℤ)) ≤ (M : ℤ) := by omega
    have h32 : ((2 : ℤ) ^ 32 - 1) = ((2 ^ 32 - 1 : Nat) : ℤ) := by norm_num
    omega

lemma castClamp_le (v : ℚ) (M : Nat) (hM : M ≤ 2 ^ 32 - 1) :
    rustCastU32 (rustClamp v 0 (M : ℚ)) ≤ M := by
  rw [castClamp v M hM]; omega

/-- Pointwise evaluation helper: the cast of the clamp is min of the floor
and the bound, once the floor value is known and nonnegative. -/
lemma castClamp_eval (v : ℚ) (M k : Nat) (hM : M ≤ 2 ^ 32 - 1)
    (hk : ⌊v⌋ = (k : ℤ)) :
    rustCastU32 (rustClamp v 0 (M : ℚ)) = min k M := by
  rw [castClamp v M hM, hk]; omega

/-- Evaluation helper for a single crop component on concrete inputs. -/
lemma evalComp (v : ℚ) (M f n : Nat) (hM : M ≤ 2 ^ 32 - 1)
    (h1 : ((f : ℤ) : ℚ) ≤ v) (h2 : v < ((f : ℤ) : ℚ) + 1) (hn : min f M = n) :
    rustCastU32 (rustClamp v 0 (M : ℚ)) = n := by
  rw [castClamp_eval v M f hM (Int.floor_eq_iff.mpr ⟨h1, h2⟩), hn]

lemma cc4 : computeCrop 4 4 ⟨1, 1, 2, 2, 4, 4⟩ = (1, 1, 2, 2) := by
  have hsx : sxOf 4 ⟨1, 1, 2, 2, 4, 4⟩ = 1 :=
    evalComp _ 4 1 1 (by norm_num) (by norm_num) (by norm_num) (by norm_num)
  have hsy : syOf 4 ⟨1, 1, 2, 2, 4, 4⟩ = 1 :=
    evalComp _ 4 1 1 (by norm_num) (by norm_num) (by norm_num) (by norm_num)
  have hsw : swOf 4 ⟨1, 1, 2, 2, 4, 4⟩ = 2 := by
    unfold swOf
    rw [hsx, show ((4 : Nat) : ℚ) - ((1 : Nat) : ℚ) = ((3 : Nat) : ℚ) by norm_num]
    exact evalComp _ 3 2 2 (by norm_num) (by norm_num) (by norm_num) (by norm_num)
  have hsh : shOf 4 ⟨1, 1, 2, 2, 4, 4⟩ = 2 := by
    unfold shOf
    rw [hsy, show ((4 : Nat) : ℚ) - ((1 : Nat) : ℚ) = ((3 : Nat) : ℚ) by norm_num]
    exact evalComp _ 3 2 2 (by norm_num) (by norm_num) (by norm_num) (by norm_num)
  rw [computeCrop_def, hsx, hsy, hsw, hsh]

lemma cc1920a : computeCrop 1920 1080 ⟨1919, 1079, 10, 10, 1920, 1080⟩ = (1919, 1079, 1, 1) := by
  have hsx : sxOf 1920 ⟨1919, 1079, 10, 10, 1920, 1080⟩ = 1919 :=
    evalComp _ 1920 1919 1919 (by norm_num) (by norm_num) (by norm_num) (by norm_num)
  have hsy : syOf 1080 ⟨1919, 1079, 10, 10, 1920, 1080⟩ = 1079 :=
    evalComp _ 1080 1079 1079 (by norm_num) (by norm_num) (by norm_num) (by norm_num)
  have hsw : swOf 1920 ⟨1919, 1079, 10, 10, 1920, 1080⟩ = 1 := by
    unfold swOf
    rw [hsx, show ((1920 : Nat) : ℚ) - ((1919 : Nat) : ℚ) = ((1 : Nat) : ℚ) by norm_num]
    exact evalComp _ 1 10 1 (by norm_num) (by norm_num) (by norm_num) (by norm_num)
  have hsh : shOf 1080 ⟨1919, 1079, 10, 10, 1920, 1080⟩ = 1 := by
    unfold shOf
    rw [hsy, show ((1080 : Nat) : ℚ) - ((1079 : Nat) : ℚ) = ((1 : Nat) : ℚ) by norm_num]
    exact evalComp _ 1 10 1 (by norm_num) (by norm_num) (by norm_num) (by norm_num)
  rw [computeCrop_def, hsx, hsy, hsw, hsh]

lemma cc1920b : computeCrop 1920 1080 ⟨1920, 1080, 10, 10, 1920, 1080⟩ = (1920, 1080, 0, 0) := by
  have hsx : sxOf 1920 ⟨1920, 1080, 10, 10, 1920, 1080⟩ = 1920 :=
    evalComp _ 1920 1920 1920 (by norm_num) (by norm_num) (by norm_num) (by norm_num)
  have hsy : syOf 1080 ⟨1920, 1080, 10, 10, 1920, 1080⟩ = 1080 :=
    evalComp _ 1080 1080 1080 (by norm_num) (by norm_num) (by norm_num) (by norm_num)
  have hsw : swOf 1920 ⟨1920, 1080, 10, 10, 1920, 1080⟩ = 0 := by
    unfold swOf
    rw [hsx, show ((1920 : Nat) : ℚ) - ((1920 : Nat) : ℚ) = ((0 : Nat) : ℚ) by norm_num]
    exact evalComp _ 0 10 0 (by norm_num) (by norm_num) (by norm_num) (by norm_num)
  have hsh : shOf 1080 ⟨1920, 1080, 10, 10, 1920, 1080⟩ = 0 := by
    unfold shOf
    rw [hsy, show ((1080 : Nat) : ℚ) - ((1080 : Nat) : ℚ) = ((0 : Nat) : ℚ) by norm_num]
    exact evalComp _ 0 10 0 (by norm_num) (by norm_num) (by norm_num) (by norm_num)
  rw [computeCrop_def, hsx, hsy, hsw, hsh]

lemma sxOf_le (W : Nat) (a : Selection) (hW : W < 2 ^ 32) : sxOf W a ≤ W :=
  castClamp_le _ _ (by omega)

lemma syOf_le (H : Nat) (a : Selection) (hH : H < 2 ^ 32) : syOf H a ≤ H :=
  castClamp_le _ _ (by omega)

lemma sub_cast_sx (W : Nat) (a : Selection) (hW : W < 2 ^ 32) :
    (W : ℚ) - (sxOf W a : ℚ) = ((W - sxOf W a : Nat) : ℚ) :=
  (Nat.cast_sub (sxOf_le W a hW)).symm

lemma sub_cast_sy (H : Nat) (a : Selection) (hH : H < 2 ^ 32) :
    (H : ℚ) - (syOf H a : ℚ) = ((H - syOf H a : Nat) : ℚ) :=
  (Nat.cast_sub (syOf_le H a hH)).symm

lemma swOf_eq (W : Nat) (a : Selection) (hW : W < 2 ^ 32) :
    swOf W a = specCropExtent (a.width * ((W : ℚ) / a.viewport_w)) (W - sxOf W a) := by
  unfold swOf specCropExtent
  rw [sub_cast_sx W a hW, castClamp _ _ (by omega)]

lemma shOf_eq (H : Nat) (a : Selection) (hH : H < 2 ^ 32) :
    shOf H a = specCropExtent (a.height * ((H : ℚ) / a.viewport_h)) (H - syOf H a) := by
  unfold shOf specCropExtent
  rw [sub_cast_sy H a hH, castClamp _ _ (by omega)]

lemma swOf_le (W : Nat) (a : Selection) (hW : W < 2 ^ 32) :
    swOf W a ≤ W - sxOf W a := by
  unfold swOf
  rw [sub_cast_sx W a hW]
  exact castClamp_le _ _ (by omega)

lemma shOf_le (H : Nat) (a : Selection) (hH : H < 2 ^ 32) :
    shOf H a ≤ H - syOf H a := by
  unfold shOf
  rw [sub_cast_sy H a hH]
  exact castClamp_le _ _ (by omega)

lemma crop_bounds (W H : Nat) (a : Selection) (hW : W < 2 ^ 32) (hH : H < 2 ^ 32) :
    sxOf W a + swOf W a ≤ W ∧ syOf H a + shOf H a ≤ H := by
  have h1 := sxOf_le W a hW
  have h2 := swOf_le W a hW
  have h3 := syOf_le H a hH
  have h4 := shOf_le H a hH
  omega

/-- C2: the cropped pixel dimensions computed by finish_snip equal the
spec formula clamp(round_down(extent * scale), 0, buffer_dim - origin) in
each axis, and the crop rectangle stays inside the buffer. -/
theorem crop_dims_spec (snip : SnipState) (a : Selection)
    (hW : snip.width < 2 ^ 32) (hH : snip.height < 2 ^ 32)
    (_hw : 0 < a.width) (_hh : 0 < a.height) :
    (computeCrop snip.width snip.height a).2.2.1
      = specCropExtent (a.width * ((snip.width : ℚ) / a.viewport_w))
          (snip.width - (computeCrop snip.width snip.height a).1)
    ∧ (computeCrop snip.width snip.height a).2.2.2
      = specCropExtent (a.height * ((snip.height : ℚ) / a.viewport_h))
          (snip.height - (computeCrop snip.width snip.height a).2.1)
    ∧ (computeCrop snip.width snip.height a).1
        + (computeCrop snip.width snip.height a).2.2.1 ≤ snip.width
    ∧ (computeCrop snip.width snip.height a).2.1
        + (computeCrop snip.width snip.height a).2.2.2 ≤ snip.height := by
  rw [computeCrop_def]
  refine ⟨swOf_eq _ _ hW, shOf_eq _ _ hH, ?_, ?_⟩
  · exact (crop_bounds snip.width snip.height a hW hH).1
  · exact (crop_bounds snip.width snip.height a hW hH).2

lemma dims_pos (W H : Nat) (a : Selection) (sx sy sw sh : Nat)
    (hc : computeCrop W H a = (sx, sy, sw, sh)) (hw : sw ≠ 0) (hh : sh ≠ 0) :
    W ≠ 0 ∧ H ≠ 0 := by
  rw [computeCrop_def] at hc
  simp only [Prod.mk.injEq] at hc
  obtain ⟨e1, e2, e3, e4⟩ := hc
  constructor
  · intro h0
    subst h0
    have := swOf_le 0 a (by norm_num)
    omega
  · intro h0
    subst h0
    have := shOf_le 0 a (by norm_num)
    omega

lemma crop_access_core (snip : SnipState) (a : Selection) (sx sy sw sh : Nat)
    (hlen : snip.image.length = snip.width * snip.height * 4)
    (hsz : snip.width * snip.height * 4 < 2 ^ 32)
    (hc : computeCrop snip.width snip.height a = (sx, sy, sw, sh))
    (hw : sw ≠ 0) (hh : sh ≠ 0) :
    ∀ row : Nat, sy ≤ row → row < sy + sh →
      rowStart snip.width sx row = row * snip.width * 4 + sx * 4
      ∧ rowEnd snip.width sx sw row = row * snip.width * 4 + sx * 4 + sw * 4
      ∧ row * snip.width * 4 + sx * 4 + sw * 4 ≤ snip.image.length := by
  obtain ⟨hW0, hH0⟩ := dims_pos snip.width snip.height a sx sy sw sh hc hw hh
  have hWle : snip.width ≤ snip.width * snip.height * 4 := by
    calc snip.width = snip.width * 1 * 1 := by ring
      _ ≤ snip.width * snip.height * 4 :=
          Nat.mul_le_mul (Nat.mul_le_mul_left _ (by omega)) (by omega)
  have hHle : snip.height ≤ snip.width * snip.height * 4 := by
    calc snip.height = 1 * snip.height * 1 := by ring
      _ ≤ snip.width * snip.height * 4 :=
          Nat.mul_le_mul (Nat.mul_le_mul_right _ (by omega)) (by omega)
  have hW : snip.width < 2 ^ 32 := lt_of_le_of_lt hWle hsz
  have hH : snip.height < 2 ^ 32 := lt_of_le_of_lt hHle hsz
  have hb := crop_bounds snip.width snip.height a hW hH
  rw [computeCrop_def] at hc
  simp only [Prod.mk.injEq] at hc
  obtain ⟨e1, e2, e3, e4⟩ := hc
  have hb1 : sx + sw ≤ snip.width := by omega
  have hb2 : sy + sh ≤ snip.height := by omega
  intro row h1 h2
  have hrow : row + 1 ≤ snip.height := by omega
  have key : (row * snip.width + sx + sw) * 4 ≤ snip.width * snip.height * 4 := by
    have k4 : row * snip.width + sx + sw ≤ snip.height * snip.width := by
      calc row * snip.width + sx + sw = row * snip.width + (sx + sw) := by ring
        _ ≤ row * snip.width + snip.width := Nat.add_le_add_left hb1 _
        _ = (row + 1) * snip.width := by ring
        _ ≤ snip.height * snip.width := Nat.mul_le_mul_right _ hrow
    calc (row * snip.width + sx + sw) * 4 ≤ snip.height * snip.width * 4 :=
          Nat.mul_le_mul_right _ k4
      _ = snip.width * snip.height * 4 := by ring
  have hkey32 : (row * snip.width + sx + sw) * 4 < 2 ^ 32 := lt_of_le_of_lt key hsz
  have hstart : row * snip.width * 4 + sx * 4 < 2 ^ 32 := by omega
  have hsw4 : sw * 4 < 2 ^ 32 := by omega
  have e5 : rowStart snip.width sx row = row * snip.width * 4 + sx * 4 := by
    unfold rowStart
    exact Nat.mod_eq_of_lt hstart
  have e6 : rowEnd snip.width sx sw row = row * snip.width * 4 + sx * 4 + sw * 4 := by
    unfold rowEnd
    rw [e5, Nat.mod_eq_of_lt hsw4]
  refine ⟨e5, e6, ?_⟩
  rw [hlen]
  omega

/-- C4: under the buffer length invariant and the validity checks of
finish_snip, every row slice [start, end) taken by the crop loop lies
inside the pixel buffer, so the out-of-bounds branch of slice indexing is
unreachable. -/
theorem crop_row_access_safe (snip : SnipState) (a : Selection) (sx sy sw sh : Nat)
    (hlen : snip.image.length = snip.width * snip.height * 4)
    (hsz : snip.width * snip.height * 4 < 2 ^ 32)
    (hc : computeCrop snip.width snip.height a = (sx, sy, sw, sh))
    (hw : sw ≠ 0) (hh : sh ≠ 0) :
    ∀ row : Nat, sy ≤ row → row < sy + sh →
      rowStart snip.width sx row ≤ rowEnd snip.width sx sw row
      ∧ rowEnd snip.width sx sw row ≤ snip.image.length := by
  intro row h1 h2
  obtain ⟨e5, e6, hb⟩ := crop_access_core snip a sx sy sw sh hlen hsz hc hw hh row h1 h2
  omega

/-- C4 witness: a 4x4 RGBA buffer with crop (1, 1, 2, 2); the slice bounds
of row 1 stay inside the 64-byte buffer. -/
theorem crop_row_access_safe_witness :
    rowStart 4 1 1 ≤ rowEnd 4 1 2 1
    ∧ rowEnd 4 1 2 1 ≤ (SnipState.mk (List.replicate 64 0) 4 4).image.length :=
  crop_row_access_safe ⟨List.replicate 64 0, 4, 4⟩ ⟨1, 1, 2, 2, 4, 4⟩ 1 1 2 2
    (by decide) (by decide) cc4 (by decide) (by decide) 1 (by decide) (by decide)

/-- C2 witness: the theorem applied to scenario A of the spec, a 1920x1080
buffer at 1x scale with selection (100, 100, 200, 150). -/
theorem crop_dims_spec_witness :
    (computeCrop 1920 1080 ⟨100, 100, 200, 150, 1920, 1080⟩).2.2.1
      = specCropExtent ((200 : ℚ) * ((1920 : ℚ) / 1920))
          (1920 - (computeCrop 1920 1080 ⟨100, 100, 200, 150, 1920, 1080⟩).1)
    ∧ (computeCrop 1920 1080 ⟨100, 100, 200, 150, 1920, 1080⟩).2.2.2
      = specCropExtent ((150 : ℚ) * ((1080 : ℚ) / 1080))
          (1080 - (computeCrop 1920 1080 ⟨100, 100, 200, 150, 1920, 1080⟩).2.1)
    ∧ (computeCrop 1920 1080 ⟨100, 100, 200, 150, 1920, 1080⟩).1
        + (computeCrop 1920 1080 ⟨100, 100, 200, 150, 1920, 1080⟩).2.2.1 ≤ 1920
    ∧ (computeCrop 1920 1080 ⟨100, 100, 200, 150, 1920, 1080⟩).2.1
        + (computeCrop 1920 1080 ⟨100, 100, 200, 150, 1920, 1080⟩).2.2.2 ≤ 1080 :=
  crop_dims_spec ⟨[], 1920, 1080⟩ ⟨100, 100, 200, 150, 1920, 1080⟩
    (by norm_num) (by norm_num) (by norm_num) (by norm_num)

lemma foldl_append_flatten (l : List Nat) (f : Nat → List Nat) (init : List Nat) :
    l.foldl (fun acc x => acc ++ f x) init = init ++ (l.map f).flatten := by
  induction l generalizing init with
  | nil => simp
  | cons a t ih => simp [ih, List.append_assoc]

lemma cropLoop_flatten (img : List Nat) (W sx sy sw sh : Nat) :
    cropLoop img W sx sy sw sh =
      ((List.range' sy sh).map
        (fun row =>
          (img.drop (rowStart W sx row)).take
            (rowEnd W sx sw row - rowStart W sx row))).flatten := by
  unfold cropLoop
  rw [foldl_append_flatten]
  simp

lemma flatten_map_extract (f : Nat → List Nat) (L : Nat) :
    ∀ (n s : Nat), (∀ j, j < n → (f (s + j)).length = L) →
      ∀ i, i < n → ((((List.range' s n).map f).flatten).drop (i * L)).take L = f (s + i) := by
  intro n
  induction n with
  | zero => intro s hf i hi; omega
  | succ m ih =>
    intro s hf i hi
    rw [List.range'_succ s m 1]
    cases i with
    | zero =>
      simp only [List.map_cons, List.flatten_cons, Nat.zero_mul, List.drop_zero, Nat.add_zero]
      have hl : (f s).length = L := by simpa using hf 0 (by omega)
      rw [← hl]
      exact List.take_left _ _
    | succ j =>
      simp only [List.map_cons, List.flatten_cons]
      have hl : (f s).length = L := by simpa using hf 0 (by omega)
      have hdrop : ((f s ++ ((List.range' (s + 1) m).map f).flatten).drop ((j + 1) * L))
          = (((List.range' (s + 1) m).map f).flatten).drop (j * L) := by
        rw [show (j + 1) * L = (f s).length + j * L by rw [hl]; ring]
        exact List.drop_append _
      rw [hdrop]
      have hf2 : ∀ k, k < m → (f (s + 1 + k)).length = L := by
        intro k hk
        have hx := hf (k + 1) (by omega)
        rwa [show s + (k + 1) = s + 1 + k by omega] at hx
      have hy := ih (s + 1) hf2 j (by omega)
      rwa [show s + 1 + j = s + (j + 1) by omega] at hy

/-- C5: each output row of the crop equals the corresponding byte slice of
the original buffer taken with the original row stride. -/
theorem crop_rows_content (snip : SnipState) (a : Selection) (sx sy sw sh : Nat)
    (hlen : snip.image.length = snip.width * snip.height * 4)
    (hsz : snip.width * snip.height * 4 < 2 ^ 32)
    (hc : computeCrop snip.width snip.height a = (sx, sy, sw, sh))
    (hw : sw ≠ 0) (hh : sh ≠ 0) :
    ∀ i, i < sh →
      ((cropLoop snip.image snip.width sx sy sw sh).drop (i * (sw * 4))).take (sw * 4)
        = (snip.image.drop (((sy + i) * snip.width + sx) * 4)).take (sw * 4) := by
  intro i hi
  have core := crop_access_core snip a sx sy sw sh hlen hsz hc hw hh
  rw [cropLoop_flatten]
  have hflen : ∀ j, j < sh →
      ((snip.image.drop (rowStart snip.width sx (sy + j))).take
        (rowEnd snip.width sx sw (sy + j) - rowStart snip.width sx (sy + j))).length
        = sw * 4 := by
    intro j hj
    obtain ⟨e5, e6, hb⟩ := core (sy + j) (by omega) (by omega)
    rw [e5, e6, List.length_take, List.length_drop]
    omega
  rw [flatten_map_extract _ (sw * 4) sh sy hflen i hi]
  obtain ⟨e5, e6, hb⟩ := core (sy + i) (by omega) (by omega)
  rw [e5, e6,
      show ((sy + i) * snip.width + sx) * 4 = (sy + i) * snip.width * 4 + sx * 4 by ring]
  congr 1
  omega

/-- C5 witness: on a 4x4 buffer with crop (1, 1, 2, 2), output row 0 equals
the byte slice of the source at the stride of the original buffer. -/
theorem crop_rows_content_witness :
    ((cropLoop (List.replicate 64 0) 4 1 1 2 2).drop (0 * (2 * 4))).take (2 * 4)
      = ((List.replicate 64 0).drop (((1 + 0) * 4 + 1) * 4)).take (2 * 4) :=
  crop_rows_content ⟨List.replicate 64 0, 4, 4⟩ ⟨1, 1, 2, 2, 4, 4⟩ 1 1 2 2
    (by decide) (by decide) cc4 (by decide) (by decide) 0 (by decide)

lemma cancel_clears (w : World) (ce : CancelEnv) : ((cancel_snip w ce).1).snip = none := by
  unfold cancel_snip
  cases hov : w.overlayExists <;> cases hc : ce.closeOk <;>
    cases hm : w.mainExists <;> cases he : ce.emitOk <;> simp [hov, hc, hm, he]

lemma cancel_ok (w : World) (ce : CancelEnv) (he : ce.emitOk = true) :
    (cancel_snip w ce).2 = Except.ok () := by
  unfold cancel_snip
  cases hov : w.overlayExists <;> cases hc : ce.closeOk <;>
    cases hm : w.mainExists <;> simp [hov, hc, hm, he]

lemma finishEmit_snip (w : World) (fe : FinishEnv) (p : String) :
    ((finishEmit w fe p).1).snip = w.snip := by
  unfold finishEmit
  cases hm : w.mainExists <;> cases he : fe.emitOk <;>
    cases hov : w.overlayExists <;> cases hc : fe.closeOk <;> simp [hm, he, hov, hc]

lemma finishEmit_err (w : World) (fe : FinishEnv) (p : String) (e : String)
    (h : (finishEmit w fe p).2 = Except.error e) : (finishEmit w fe p).1 = w := by
  unfold finishEmit at h ⊢
  cases hm : w.mainExists <;> cases he : fe.emitOk <;> simp [hm, he] at h ⊢

lemma finishEmit_ok_overlay (w : World) (fe : FinishEnv) (p : String)
    (hc : fe.closeOk = true) (h : (finishEmit w fe p).2 = Except.ok ()) :
    ((finishEmit w fe p).1).overlayExists = false := by
  unfold finishEmit at h ⊢
  cases hm : w.mainExists <;> cases he : fe.emitOk <;>
    cases hov : w.overlayExists <;> simp [hm, he, hov, hc] at h ⊢

lemma finishActive_snip (w : World) (c : Codec) (fe : FinishEnv) (a : Selection)
    (s : SnipState) : ((finishActive w c fe a s).1).snip = w.snip := by
  simp only [finishActive]
  by_cases hv : a.width ≤ 0 ∨ a.height ≤ 0
  · rw [if_pos hv]
  · rw [if_neg hv]
    by_cases hz : swOf s.width a = 0 ∨ shOf s.height a = 0
    · rw [if_pos hz]
    · rw [if_neg hz]
      rcases hE : c.pngEncode (swOf s.width a) (shOf s.height a)
          (cropLoop s.image s.width (sxOf s.width a) (syOf s.height a)
            (swOf s.width a) (shOf s.height a)) with e | png
      · rfl
      · exact finishEmit_snip _ _ _

lemma finishActive_err (w : World) (c : Codec) (fe : FinishEnv) (a : Selection)
    (s : SnipState) (e : String) (h : (finishActive w c fe a s).2 = Except.error e) :
    (finishActive w c fe a s).1 = w := by
  simp only [finishActive] at h ⊢
  by_cases hv : a.width ≤ 0 ∨ a.height ≤ 0
  · rw [if_pos hv]
  · rw [if_neg hv] at h ⊢
    by_cases hz : swOf s.width a = 0 ∨ shOf s.height a = 0
    · rw [if_pos hz]
    · rw [if_neg hz] at h ⊢
      rcases hE : c.pngEncode (swOf s.width a) (shOf s.height a)
          (cropLoop s.image s.width (sxOf s.width a) (syOf s.height a)
            (swOf s.width a) (shOf s.height a)) with e2 | png
      · rfl
      · rw [hE] at h
        exact finishEmit_err _ _ _ _ h

lemma finishActive_ok_overlay (w : World) (c : Codec) (fe : FinishEnv) (a : Selection)
    (s : SnipState) (hc : fe.closeOk = true)
    (h : (finishActive w c fe a s).2 = Except.ok ()) :
    ((finishActive w c fe a s).1).overlayExists = false := by
  simp only [finishActive] at h ⊢
  by_cases hv : a.width ≤ 0 ∨ a.height ≤ 0
  · rw [if_pos hv] at h
    simp at h
  · rw [if_neg hv] at h ⊢
    by_cases hz : swOf s.width a = 0 ∨ shOf s.height a = 0
    · rw [if_pos hz] at h
      simp at h
    · rw [if_neg hz] at h ⊢
      rcases hE : c.pngEncode (swOf s.width a) (shOf s.height a)
          (cropLoop s.image s.width (sxOf s.width a) (syOf s.height a)
            (swOf s.width a) (shOf s.height a)) with e2 | png
      · rw [hE] at h
        simp at h
      · rw [hE] at h
        exact finishEmit_ok_overlay _ _ _ hc h

lemma finish_clears (w : World) (c : Codec) (fe : FinishEnv) (a : Selection) :
    ((finish_snip w c fe a).1).snip = none := by
  rcases hs : w.snip with _ | s
  · simp [finish_snip, hs]
  · simp only [finish_snip, hs]
    rw [finishActive_snip]

lemma finishEmit_ok (w : World) (fe : FinishEnv) (p : String) (he : fe.emitOk = true) :
    (finishEmit w fe p).2 = Except.ok () := by
  unfold finishEmit
  cases hm : w.mainExists <;> simp [hm, he]

lemma finish_none (w : World) (c : Codec) (fe : FinishEnv) (a : Selection)
    (h : w.snip = none) :
    finish_snip w c fe a = (w, Except.error "No snip state") := by
  simp [finish_snip, h]

lemma get_none (w : World) (c : Codec) (h : w.snip = none) :
    get_snip_image w c = (w, Except.error "No snip state") := by
  simp [get_snip_image, h]

lemma finish_invalid (w : World) (c : Codec) (fe : FinishEnv) (a : Selection) (s : SnipState)
    (hs : w.snip = some s) (hv : a.width ≤ 0 ∨ a.height ≤ 0) :
    finish_snip w c fe a = ({ w with snip := none }, Except.error "Invalid selection") := by
  simp only [finish_snip, hs, finishActive]
  rw [if_pos hv]

lemma finish_toosmall (w : World) (c : Codec) (fe : FinishEnv) (a : Selection) (s : SnipState)
    (hs : w.snip = some s) (hv : ¬(a.width ≤ 0 ∨ a.height ≤ 0))
    (hz : swOf s.width a = 0 ∨ shOf s.height a = 0) :
    finish_snip w c fe a = ({ w with snip := none }, Except.error "Selection too small") := by
  simp only [finish_snip, hs, finishActive]
  rw [if_neg hv, if_pos hz]

lemma finish_ok (w : World) (c : Codec) (fe : FinishEnv) (a : Selection) (s : SnipState)
    (hs : w.snip = some s) (hv : ¬(a.width ≤ 0 ∨ a.height ≤ 0))
    (hz : ¬(swOf s.width a = 0 ∨ shOf s.height a = 0)) (png : List Nat)
    (hE : c.pngEncode (swOf s.width a) (shOf s.height a)
        (cropLoop s.image s.width (sxOf s.width a) (syOf s.height a)
          (swOf s.width a) (shOf s.height a)) = Except.ok png)
    (hemit : fe.emitOk = true) :
    (finish_snip w c fe a).2 = Except.ok () := by
  simp only [finish_snip, hs, finishActive]
  rw [if_neg hv, if_neg hz, hE]
  exact finishEmit_ok _ _ _ hemit

/-- C3: finish_snip consumes the session: whenever the slot is empty, be it
because no start ran, because cancel cleared it, or because a previous
finish took it (cancel and finish always leave the slot empty), finish
fails with the NoActiveSnip error "No snip state" instead of silently
succeeding. -/
theorem finish_requires_session (w w2 w3 : World) (c c3 : Codec) (fe fe3 : FinishEnv)
    (a a3 : Selection) (ce : CancelEnv) (h : w.snip = none) :
    finish_snip w c fe a = (w, Except.error "No snip state")
    ∧ ((cancel_snip w2 ce).1).snip = none
    ∧ ((finish_snip w3 c3 fe3 a3).1).snip = none :=
  ⟨finish_none w c fe a h, cancel_clears w2 ce, finish_clears w3 c3 fe3 a3⟩

/-- C3 witness: finish on an idle controller fails with "No snip state";
cancel and finish leave the slot empty on a concrete active state. -/
theorem finish_requires_session_witness :
    finish_snip wIdle cOk feOk ⟨1, 1, 2, 2, 4, 4⟩ = (wIdle, Except.error "No snip state")
    ∧ ((cancel_snip wActive ceOk).1).snip = none
    ∧ ((finish_snip wActive cOk feOk ⟨1, 1, 2, 2, 4, 4⟩).1).snip = none :=
  finish_requires_session wIdle wActive wActive cOk cOk feOk feOk
    ⟨1, 1, 2, 2, 4, 4⟩ ⟨1, 1, 2, 2, 4, 4⟩ ceOk rfl

/-- C9: cancel_snip is idempotent and total over session state: two
consecutive cancels both succeed (given the emit collaborator succeeds,
the only failure the source propagates), a cancel on an idle controller
included, and the slot is empty afterwards in every case. -/
theorem cancel_idempotent (w : World) (ce1 ce2 : CancelEnv)
    (h1 : ce1.emitOk = true) (h2 : ce2.emitOk = true) :
    (cancel_snip w ce1).2 = Except.ok ()
    ∧ ((cancel_snip w ce1).1).snip = none
    ∧ (cancel_snip (cancel_snip w ce1).1 ce2).2 = Except.ok ()
    ∧ ((cancel_snip (cancel_snip w ce1).1 ce2).1).snip = none :=
  ⟨cancel_ok w ce1 h1, cancel_clears w ce1, cancel_ok _ ce2 h2, cancel_clears _ ce2⟩

/-- C9 witness: two cancels on an idle controller both succeed and leave
the slot empty. -/
theorem cancel_idempotent_witness :
    (cancel_snip wIdle ceOk).2 = Except.ok ()
    ∧ ((cancel_snip wIdle ceOk).1).snip = none
    ∧ (cancel_snip (cancel_snip wIdle ceOk).1 ceOk).2 = Except.ok ()
    ∧ ((cancel_snip (cancel_snip wIdle ceOk).1 ceOk).1).snip = none :=
  cancel_idempotent wIdle ceOk ceOk rfl rfl

/-- C6: get_snip_image is read-only on the session: with an active session
and a successful encode, the state is unchanged, the call succeeds with
the data URL of the encoded buffer, and a second call returns the same
state and the byte-identical string. -/
theorem query_readonly (w : World) (c : Codec) (s : SnipState) (png : List Nat)
    (hs : w.snip = some s)
    (he : c.pngEncode s.width s.height s.image = Except.ok png) :
    (get_snip_image w c).1 = w
    ∧ (get_snip_image w c).2 = Except.ok (dataUrlOf (c.b64 png))
    ∧ (get_snip_image (get_snip_image w c).1 c).1 = w
    ∧ (get_snip_image (get_snip_image w c).1 c).2 = (get_snip_image w c).2 := by
  have h1 : get_snip_image w c = (w, Except.ok (dataUrlOf (c.b64 png))) := by
    simp [get_snip_image, hs, he]
  exact ⟨by simp [h1], by simp [h1], by simp [h1], by simp [h1]⟩

/-- C6 witness: two queries against a concrete active session both succeed
with the same data URL and leave the state untouched. -/
theorem query_readonly_witness :
    (get_snip_image wActive cOk).1 = wActive
    ∧ (get_snip_image wActive cOk).2 = Except.ok (dataUrlOf (cOk.b64 (List.replicate 64 0)))
    ∧ (get_snip_image (get_snip_image wActive cOk).1 cOk).1 = wActive
    ∧ (get_snip_image (get_snip_image wActive cOk).1 cOk).2 = (get_snip_image wActive cOk).2 :=
  query_readonly wActive cOk s4 (List.replicate 64 0) rfl rfl

/-- C10: a failed finish is not atomic with respect to the session: the
session is taken before validation, so after a finish on an active session
the slot is empty whatever the outcome, every subsequent query or finish
fails with "No snip state", and an invalid selection still produces this
consumed state together with the InvalidSelection error. -/
theorem finish_consumes_on_error (w : World) (c c2 : Codec) (fe fe2 : FinishEnv)
    (a a2 : Selection) (s : SnipState) (hs : w.snip = some s) :
    ((finish_snip w c fe a).1).snip = none
    ∧ (get_snip_image (finish_snip w c fe a).1 c2).2 = Except.error "No snip state"
    ∧ (finish_snip (finish_snip w c fe a).1 c2 fe2 a2).2 = Except.error "No snip state"
    ∧ (a.width ≤ 0 → finish_snip w c fe a
        = ({ w with snip := none }, Except.error "Invalid selection")) := by
  have hclear := finish_clears w c fe a
  refine ⟨hclear, ?_, ?_, fun hw => finish_invalid w c fe a s hs (Or.inl hw)⟩
  · rw [get_none _ c2 hclear]
  · rw [finish_none _ c2 fe2 a2 hclear]

/-- C10 witness: a finish with an invalid selection (width -5) on an active
session consumes the session, later query and finish fail, and the call
itself returns InvalidSelection without emitting anything. -/
theorem finish_consumes_on_error_witness :
    ((finish_snip wActive cOk feOk ⟨-1, 0, -5, 2, 4, 4⟩).1).snip = none
    ∧ (get_snip_image (finish_snip wActive cOk feOk ⟨-1, 0, -5, 2, 4, 4⟩).1 cOk).2
        = Except.error "No snip state"
    ∧ (finish_snip (finish_snip wActive cOk feOk ⟨-1, 0, -5, 2, 4, 4⟩).1 cOk feOk
        ⟨1, 1, 2, 2, 4, 4⟩).2 = Except.error "No snip state"
    ∧ finish_snip wActive cOk feOk ⟨-1, 0, -5, 2, 4, 4⟩
        = ({ wActive with snip := none }, Except.error "Invalid selection") :=
  ⟨(finish_consumes_on_error wActive cOk cOk feOk feOk ⟨-1, 0, -5, 2, 4, 4⟩
      ⟨1, 1, 2, 2, 4, 4⟩ s4 rfl).1,
   (finish_consumes_on_error wActive cOk cOk feOk feOk ⟨-1, 0, -5, 2, 4, 4⟩
      ⟨1, 1, 2, 2, 4, 4⟩ s4 rfl).2.1,
   (finish_consumes_on_error wActive cOk cOk feOk feOk ⟨-1, 0, -5, 2, 4, 4⟩
      ⟨1, 1, 2, 2, 4, 4⟩ s4 rfl).2.2.1,
   (finish_consumes_on_error wActive cOk cOk feOk feOk ⟨-1, 0, -5, 2, 4, 4⟩
      ⟨1, 1, 2, 2, 4, 4⟩ s4 rfl).2.2.2 (by norm_num)⟩

/-- C8: boundary clamping in finish: against an active 1920x1080 buffer at
1x scale, selection origin (1919, 1079) with extent 10x10 clamps to a
successful 1x1 crop (not SelectionTooSmall), while origin exactly
(1920, 1080) clamps to zero extent and fails with "Selection too small". -/
theorem boundary_clamp_scenario :
    computeCrop 1920 1080 ⟨1919, 1079, 10, 10, 1920, 1080⟩ = (1919, 1079, 1, 1)
    ∧ (finish_snip w1920 cOk feOk ⟨1919, 1079, 10, 10, 1920, 1080⟩).2 = Except.ok ()
    ∧ finish_snip w1920 cOk feOk ⟨1920, 1080, 10, 10, 1920, 1080⟩
        = ({ w1920 with snip := none }, Except.error "Selection too small") := by
  have h1 := cc1920a
  have h2 := cc1920b
  rw [computeCrop_def] at h1 h2
  simp only [Prod.mk.injEq] at h1 h2
  refine ⟨cc1920a, ?_, ?_⟩
  · refine finish_ok w1920 cOk feOk _ s1920 rfl (by norm_num) ?_ _ rfl rfl
    show ¬(swOf 1920 ⟨1919, 1079, 10, 10, 1920, 1080⟩ = 0
      ∨ shOf 1080 ⟨1919, 1079, 10, 10, 1920, 1080⟩ = 0)
    rw [h1.2.2.1, h1.2.2.2]
    norm_num
  · refine finish_toosmall w1920 cOk feOk _ s1920 rfl (by norm_num) ?_
    show swOf 1920 ⟨1920, 1080, 10, 10, 1920, 1080⟩ = 0
      ∨ shOf 1080 ⟨1920, 1080, 10, 10, 1920, 1080⟩ = 0
    exact Or.inl h2.2.2.1

/-- C7 counterexample: finish_snip with an invalid selection on an active
session returns an error while leaving the overlay window open, refuting
the claim that the overlay is always closed before finish returns. -/
theorem finish_overlay_counterexample :
    (finish_snip wActive cOk feOk ⟨-1, 0, -5, 2, 4, 4⟩).2 = Except.error "Invalid selection"
    ∧ ((finish_snip wActive cOk feOk ⟨-1, 0, -5, 2, 4, 4⟩).1).overlayExists = true := by
  have h := finish_invalid wActive cOk feOk ⟨-1, 0, -5, 2, 4, 4⟩ s4 rfl (Or.inl (by norm_num))
  rw [h]
  exact ⟨rfl, rfl⟩

/-- C7 amended: finish_snip closes the overlay only on its success path: on
every error return (no active session, invalid selection, selection too
small, encode failure, emit failure) the overlay-existence state is left
exactly as it was, and on a success whose close call succeeds the overlay
no longer exists when finish returns. -/
theorem finish_overlay_amended (w : World) (c : Codec) (fe : FinishEnv) (a : Selection) :
    (∀ e, (finish_snip w c fe a).2 = Except.error e →
      ((finish_snip w c fe a).1).overlayExists = w.overlayExists)
    ∧ (fe.closeOk = true → (finish_snip w c fe a).2 = Except.ok () →
      ((finish_snip w c fe a).1).overlayExists = false) := by
  rcases hs : w.snip with _ | s
  · refine ⟨fun e he => ?_, fun hc hok => ?_⟩
    · rw [finish_none w c fe a hs]
    · rw [finish_none w c fe a hs] at hok
      simp at hok
  · refine ⟨fun e he => ?_, fun hc hok => ?_⟩
    · simp only [finish_snip, hs] at he ⊢
      rw [finishActive_err _ _ _ _ _ _ he]
    · simp only [finish_snip, hs] at hok ⊢
      exact finishActive_ok_overlay _ _ _ _ _ hc hok

/-- C7 witness: an invalid-selection finish leaves the overlay as it was
(open), and a successful finish with 2x2 crop closes it. -/
theorem finish_overlay_amended_witness :
    ((finish_snip wActive cOk feOk ⟨-1, 0, -5, 2, 4, 4⟩).1).overlayExists
      = wActive.overlayExists
    ∧ ((finish_snip wActive cOk feOk ⟨1, 1, 2, 2, 4, 4⟩).1).overlayExists = false :=
  ⟨(finish_overlay_amended wActive cOk feOk ⟨-1, 0, -5, 2, 4, 4⟩).1 "Invalid selection"
      (by rw [finish_invalid wActive cOk feOk ⟨-1, 0, -5, 2, 4, 4⟩ s4 rfl
              (Or.inl (by norm_num))]),
   (finish_overlay_amended wActive cOk feOk ⟨1, 1, 2, 2, 4, 4⟩).2 rfl
      (by
        have h := cc4
        rw [computeCrop_def] at h
        simp only [Prod.mk.injEq] at h
        refine finish_ok wActive cOk feOk _ s4 rfl (by norm_num) ?_ _ rfl rfl
        show ¬(swOf 4 ⟨1, 1, 2, 2, 4, 4⟩ = 0 ∨ shOf 4 ⟨1, 1, 2, 2, 4, 4⟩ = 0)
        rw [h.2.2.1, h.2.2.2]
        norm_num)⟩

/-- C1 counterexample: a start_snip that fails at the overlay show step
returns an error with the fresh capture still in the session slot, and a
start_snip that fails at the capture step returns an error with the main
window left hidden; both refute the claimed rollback to an idle-equivalent
state (slot empty, main window visible and focused) on every failed start. -/
theorem start_rollback_counterexample :
    ((start_snip wIdle envShowFail).2 = Except.error "overlay show failed"
      ∧ ((start_snip wIdle envShowFail).1).snip ≠ none)
    ∧ ((start_snip wIdle envCapFail).2 = Except.error "capture failed"
      ∧ ((start_snip wIdle envCapFail).1).mainVisible = false) :=
  ⟨⟨rfl, by decide⟩, rfl, rfl⟩

/-- C1 amended: after a failed start_snip the system is not rolled back to
an idle-equivalent state: when the overlay fails to show (after a
successful capture) the main window is restored to visible and focused but
the session slot still holds the fresh capture, and when the capture
itself fails the main window is left hidden and the slot is simply
unchanged. -/
theorem start_rollback_amended (w : World) (env : StartEnv) (img : SnipState) :
    (env.capture = some img → env.showOk = false → env.restoreShowOk = true →
      env.restoreFocusOk = true → w.mainExists = true →
      (w.overlayExists = true ∨ env.buildOk = true) →
      (start_snip w env).2 = Except.error env.showMsg
      ∧ ((start_snip w env).1).mainVisible = true
      ∧ ((start_snip w env).1).mainFocused = true
      ∧ ((start_snip w env).1).snip = some img)
    ∧ (env.capture = none → w.mainExists = true → env.hideOk = true →
      (start_snip w env).2 = Except.error env.captureMsg
      ∧ ((start_snip w env).1).mainVisible = false
      ∧ ((start_snip w env).1).snip = w.snip) := by
  constructor
  · intro hcap hshow hrs hrf hm hov
    simp only [start_snip, hcap, restoreMain]
    cases hhide : env.hideOk <;> cases hovl : w.overlayExists <;>
      cases hbuild : env.buildOk <;> simp_all
  · intro hcap hm hhide
    simp only [start_snip, hcap]
    simp [hm, hhide]

/-- C1 witness: the amended behavior at concrete states: the show-failure
start keeps the capture in the slot with the main window restored, the
capture-failure start leaves the main window hidden and the empty slot
unchanged. -/
theorem start_rollback_amended_witness :
    ((start_snip wIdle envShowFail).2 = Except.error "overlay show failed"
      ∧ ((start_snip wIdle envShowFail).1).mainVisible = true
      ∧ ((start_snip wIdle envShowFail).1).mainFocused = true
      ∧ ((start_snip wIdle envShowFail).1).snip = some s4)
    ∧ ((start_snip wIdle envCapFail).2 = Except.error "capture failed"
      ∧ ((start_snip wIdle envCapFail).1).mainVisible = false
      ∧ ((start_snip wIdle envCapFail).1).snip = wIdle.snip) :=
  ⟨(start_rollback_amended wIdle envShowFail s4).1 rfl rfl rfl rfl rfl (Or.inr rfl),
   (start_rollback_amended wIdle envCapFail s4).2 rfl rfl rfl⟩
